import Mathlib

/-!
Shallow embedding of `src/main.py` (a dynamic-DNS updater).

The Python module talks to three external services: an IP-echo endpoint
(`requests.get`), a DNS provider's list/edit API (the `Cloudflare` client),
and the local configuration file `secrets.yaml` (`yaml.safe_load`).  We model
one reconciliation cycle as a pure function of an `Env` that records, for this
cycle, how each external call would respond.  The cycle additionally produces
a trace of the external calls it actually made, so that counting properties
(how many lookups, locates, writes, configuration reads occurred) are
provable.
-/

/-- A provider-side DNS record as seen through the list API; only the `id`
field is read by the program (`record.result[0].id`). -/
structure DnsRecord where
  id : String
deriving DecidableEq

/-- Response of the provider's `client.dns.records.list` call:
either the call raises (`fault`) or it returns a page whose `result`
field is a list of records. -/
inductive ProviderListResp where
  | fault
  | ok (records : List DnsRecord)
deriving DecidableEq

/-- Response of the provider's `client.dns.records.edit` call: either the
call raises (`fault`) or it returns a response object whose Python
truthiness is `truthy`. -/
inductive ProviderEditResp where
  | fault
  | ok (truthy : Bool)
deriving DecidableEq

/-- The `cloudflare` section of `secrets.yaml`. -/
structure CloudflareCfg where
  email : String
  api_key : String
  zone_id : String
  record_names : List String
deriving DecidableEq

/-- The parsed configuration file: the `cloudflare` section plus
`schedule.cron`. -/
structure Secrets where
  cloudflare : CloudflareCfg
  cron : String
deriving DecidableEq

/-- How the external world answers this cycle's calls.
`ipResp = none` models `requests.get` raising; `some (status, body)` models a
completed HTTP response.  `listResp` / `editResp` give the provider's answer
for each record name / record id.  `secretsFile = none` models
`yaml.safe_load`/`open` raising on `secrets.yaml`. -/
structure Env where
  ipResp : Option (Nat × String)
  listResp : String → ProviderListResp
  editResp : String → ProviderEditResp
  secretsFile : Option Secrets

/-- An external call made during a cycle, in the order the code makes them. -/
inductive Event where
  | readConfig
  | fetchIp
  | locate (record_name : String)
  | write (record_id : String) (new_ip : String)
deriving DecidableEq

/-- The per-record outcome as the code distinguishes it: `updated` when the
edit returned truthy, `writeFailed` when it did not, and `locateFailed` when
`get_record_id` returned a falsy value (which covers both an empty match set
and a provider fault). -/
inductive RecordOutcome where
  | updated
  | locateFailed
  | writeFailed
deriving DecidableEq

/-- Python falsiness of an `Optional[str]`: `None` and `""` are falsy. -/
def pyStrOptFalsy : Option String → Bool
  | none => true
  | some s => s == ""

/-- `retrieve_current_public_ip`: returns the body when the request completed
with status 200, `None` on any other status or on an exception. -/
def retrieve_current_public_ip (env : Env) : Option String :=
  match env.ipResp with
  | none => none
  | some (status, ip) => if status == 200 then some ip else none

/-- `read_secrets`: parses `secrets.yaml`; the body has no try/except, so a
read failure is an exception escaping the caller. -/
def read_secrets (env : Env) : Except Unit Secrets :=
  match env.secretsFile with
  | none => Except.error ()
  | some s => Except.ok s

/-- `get_record_id`: lists records for `record_name` in the zone.  The page
object returned by a completed list call is truthy even when its `result`
list is empty, so the code indexes `record.result[0]`; on an empty result
that raises `IndexError`, which the `except` clause turns into `None` — the
same value the `except` clause produces for a provider fault.  On a
non-empty result the id of the first returned record is taken. -/
def get_record_id (env : Env) (record_name : String) : Option String :=
  match env.listResp record_name with
  | ProviderListResp.fault => none
  | ProviderListResp.ok records =>
    match records with
    | [] => none
    | r :: _ => some r.id

/-- `update_dns_record`: edits the record's content, returning `True` when
the response is truthy and `False` on a falsy response or an exception. -/
def update_dns_record (env : Env) (record_id : String) (new_ip : String) : Bool :=
  match env.editResp record_id with
  | ProviderEditResp.fault => false
  | ProviderEditResp.ok truthy => truthy

/-- One iteration of the per-record loop in `run_updater`: locate the record
id; if it is falsy (`if not record_id: continue`) the record is skipped,
otherwise the record is written with the cycle's address and the outcome
follows the boolean returned by `update_dns_record`. -/
def process_record (env : Env) (current_ip : String) (record_name : String) :
    List Event × RecordOutcome :=
  match get_record_id env record_name with
  | none => ([Event.locate record_name], RecordOutcome.locateFailed)
  | some rid =>
    if rid == "" then
      ([Event.locate record_name], RecordOutcome.locateFailed)
    else if update_dns_record env rid current_ip then
      ([Event.locate record_name, Event.write rid current_ip], RecordOutcome.updated)
    else
      ([Event.locate record_name, Event.write rid current_ip], RecordOutcome.writeFailed)

/-- `run_updater`, one cycle: read `secrets.yaml` (an exception here escapes,
modelled by `Except.error`), fetch the public IP once, abort with no record
processing when the IP is falsy (`if not current_ip: return`, modelled by
`Except.ok none`), otherwise process every configured record name in order.
The first component is the trace of external calls; the second the returned
control flow together with the per-record outcomes in loop order. -/
def run_updater (env : Env) :
    List Event × Except Unit (Option (List (String × RecordOutcome))) :=
  match read_secrets env with
  | Except.error e => ([Event.readConfig], Except.error e)
  | Except.ok secrets =>
    if pyStrOptFalsy (retrieve_current_public_ip env) then
      ([Event.readConfig, Event.fetchIp], Except.ok none)
    else
      (Event.readConfig :: Event.fetchIp ::
        (secrets.cloudflare.record_names.map
          (fun rn => (process_record env ((retrieve_current_public_ip env).getD "") rn).1)).flatten,
       Except.ok (some (secrets.cloudflare.record_names.map
          (fun rn => (rn, (process_record env ((retrieve_current_public_ip env).getD "") rn).2)))))

/-- Whether the located id for `record_name` is truthy, i.e. the write step
is reached for it. -/
def locSuccess (env : Env) (record_name : String) : Bool :=
  match get_record_id env record_name with
  | none => false
  | some rid => !(rid == "")

/-- The truthy record id located for `record_name`. -/
def locatedId (env : Env) (record_name : String) : String :=
  (get_record_id env record_name).getD ""

def isLocateEvent : Event → Bool
  | Event.locate _ => true
  | _ => false

def isWriteEvent : Event → Bool
  | Event.write _ _ => true
  | _ => false

def isFetchEvent : Event → Bool
  | Event.fetchIp => true
  | _ => false

def isReadConfigEvent : Event → Bool
  | Event.readConfig => true
  | _ => false

def isLocateFor (rn : String) : Event → Bool
  | Event.locate r => r == rn
  | _ => false

def countLocates (t : List Event) : Nat := (t.filter isLocateEvent).length

def countWrites (t : List Event) : Nat := (t.filter isWriteEvent).length

def countFetches (t : List Event) : Nat := (t.filter isFetchEvent).length

def countReads (t : List Event) : Nat := (t.filter isReadConfigEvent).length

def countLocatesFor (rn : String) (t : List Event) : Nat :=
  (t.filter (isLocateFor rn)).length

/-- The provider-side mutations a cycle performs: the `(record_id, content)`
pairs of the edit calls the provider acknowledged. -/
def cycleWrites (env : Env) : List (String × String) :=
  (run_updater env).1.filterMap fun e =>
    match e with
    | Event.write rid ip => if update_dns_record env rid ip then some (rid, ip) else none
    | _ => none

/-- Apply a list of `(record_id, content)` writes, in order, to a
provider-side state (record id ↦ content). -/
def applyWrites (st : String → String) : List (String × String) → (String → String)
  | [] => st
  | (rid, ip) :: ws => applyWrites (fun r => if r = rid then ip else st r) ws

/-- Provider-side record content after one cycle run against state `st`. -/
def cycleEffect (env : Env) (st : String → String) : String → String :=
  applyWrites st (cycleWrites env)

/-! ## Reduction lemmas for the three regimes of a cycle -/

/-- When `secrets.yaml` cannot be read, the exception escapes `run_updater`
after the read attempt and before any other external call. -/
theorem run_updater_readFault (env : Env) (h : env.secretsFile = none) :
    run_updater env = ([Event.readConfig], Except.error ()) := by
  unfold run_updater read_secrets
  rw [h]

/-- When the configuration reads and the retrieved IP is falsy
(`None` or `""`), the cycle aborts after the fetch. -/
theorem run_updater_abort (env : Env) (s : Secrets) (h : env.secretsFile = some s)
    (hf : pyStrOptFalsy (retrieve_current_public_ip env) = true) :
    run_updater env = ([Event.readConfig, Event.fetchIp], Except.ok none) := by
  unfold run_updater read_secrets
  rw [h]
  simp [hf]

theorem pyStrOptFalsy_eq_false (o : Option String) (h : pyStrOptFalsy o = false) :
    ∃ ip, o = some ip ∧ ip ≠ "" := by
  cases o with
  | none => simp [pyStrOptFalsy] at h
  | some s =>
    refine ⟨s, rfl, ?_⟩
    simpa [pyStrOptFalsy] using h

theorem pyStrOptFalsy_some_of_ne (ip : String) (h : ip ≠ "") :
    pyStrOptFalsy (some ip) = false := by
  simpa [pyStrOptFalsy] using h

/-- When the configuration reads and the retrieved IP is truthy, the cycle
runs the per-record loop over the configured names, in order. -/
theorem run_updater_success (env : Env) (s : Secrets) (ip : String)
    (h : env.secretsFile = some s) (hip : retrieve_current_public_ip env = some ip)
    (hne : ip ≠ "") :
    run_updater env =
      (Event.readConfig :: Event.fetchIp ::
        (s.cloudflare.record_names.map (fun rn => (process_record env ip rn).1)).flatten,
       Except.ok (some (s.cloudflare.record_names.map
          (fun rn => (rn, (process_record env ip rn).2))))) := by
  unfold run_updater read_secrets
  rw [h]
  simp [hip, pyStrOptFalsy_some_of_ne ip hne]

/-! ## Shape of a single per-record step -/

/-- The per-record trace is `locate` alone when the located id is falsy, and
`locate` followed by `write` of the cycle's address otherwise. -/
theorem process_record_trace (env : Env) (ip rn : String) :
    (process_record env ip rn).1 =
      if locSuccess env rn then [Event.locate rn, Event.write (locatedId env rn) ip]
      else [Event.locate rn] := by
  unfold process_record locSuccess locatedId
  cases h : get_record_id env rn with
  | none => simp
  | some rid =>
    by_cases hrid : rid == ""
    · simp [hrid]
    · by_cases hupd : update_dns_record env rid ip <;> simp [hrid, hupd]

/-- Each write event in a per-record trace carries the cycle's address. -/
theorem process_record_write_ip (env : Env) (ip rn rid ip' : String)
    (h : Event.write rid ip' ∈ (process_record env ip rn).1) : ip' = ip := by
  rw [process_record_trace] at h
  by_cases hs : locSuccess env rn <;> simp [hs] at h
  exact h.2

theorem process_record_no_read (env : Env) (ip rn : String) :
    countReads (process_record env ip rn).1 = 0 := by
  rw [process_record_trace]
  by_cases hs : locSuccess env rn <;>
    simp [hs, countReads, isReadConfigEvent, List.filter]

theorem process_record_no_fetch (env : Env) (ip rn : String) :
    countFetches (process_record env ip rn).1 = 0 := by
  rw [process_record_trace]
  by_cases hs : locSuccess env rn <;>
    simp [hs, countFetches, isFetchEvent, List.filter]

theorem process_record_locate_count (env : Env) (ip rn rn' : String) :
    countLocatesFor rn' (process_record env ip rn).1 = if rn == rn' then 1 else 0 := by
  rw [process_record_trace]
  by_cases hs : locSuccess env rn <;> by_cases he : rn == rn' <;>
    simp [hs, he, countLocatesFor, isLocateFor, List.filter]

theorem process_record_write_count (env : Env) (ip rn : String) :
    countWrites (process_record env ip rn).1 = if locSuccess env rn then 1 else 0 := by
  rw [process_record_trace]
  by_cases hs : locSuccess env rn <;>
    simp [hs, countWrites, isWriteEvent, List.filter]

/-! ## Counting events across the per-record loop -/

theorem countWrites_append (a b : List Event) :
    countWrites (a ++ b) = countWrites a + countWrites b := by
  simp [countWrites, List.filter_append]

theorem countReads_append (a b : List Event) :
    countReads (a ++ b) = countReads a + countReads b := by
  simp [countReads, List.filter_append]

theorem countFetches_append (a b : List Event) :
    countFetches (a ++ b) = countFetches a + countFetches b := by
  simp [countFetches, List.filter_append]

theorem countLocatesFor_append (rn : String) (a b : List Event) :
    countLocatesFor rn (a ++ b) = countLocatesFor rn a + countLocatesFor rn b := by
  simp [countLocatesFor, List.filter_append]

theorem countWrites_loop (env : Env) (ip : String) (names : List String) :
    countWrites ((names.map (fun rn => (process_record env ip rn).1)).flatten)
      = (names.filter (locSuccess env)).length := by
  induction names with
  | nil => simp [countWrites]
  | cons n ns ih =>
    rw [List.map_cons, List.flatten_cons, countWrites_append, ih,
      process_record_write_count, List.filter_cons]
    by_cases hs : locSuccess env n <;> simp [hs] <;> omega

theorem countLocatesFor_loop (env : Env) (ip rn' : String) (names : List String) :
    countLocatesFor rn' ((names.map (fun rn => (process_record env ip rn).1)).flatten)
      = names.count rn' := by
  induction names with
  | nil => simp [countLocatesFor]
  | cons n ns ih =>
    rw [List.map_cons, List.flatten_cons, countLocatesFor_append, ih,
      process_record_locate_count, List.count_cons]
    by_cases he : n == rn' <;> simp [he] <;> omega

theorem countReads_loop (env : Env) (ip : String) (names : List String) :
    countReads ((names.map (fun rn => (process_record env ip rn).1)).flatten) = 0 := by
  induction names with
  | nil => simp [countReads]
  | cons n ns ih =>
    rw [List.map_cons, List.flatten_cons, countReads_append, ih, process_record_no_read]

theorem countFetches_loop (env : Env) (ip : String) (names : List String) :
    countFetches ((names.map (fun rn => (process_record env ip rn).1)).flatten) = 0 := by
  induction names with
  | nil => simp [countFetches]
  | cons n ns ih =>
    rw [List.map_cons, List.flatten_cons, countFetches_append, ih, process_record_no_fetch]

/-- Master lemma: every write event of a cycle carries exactly the address the
resolver returned, and that address is non-empty. -/
theorem write_mem_trace (env : Env) (rid ip' : String)
    (h : Event.write rid ip' ∈ (run_updater env).1) :
    retrieve_current_public_ip env = some ip' ∧ ip' ≠ "" := by
  cases hsec : env.secretsFile with
  | none =>
    rw [run_updater_readFault env hsec] at h
    simp at h
  | some s =>
    cases hf : pyStrOptFalsy (retrieve_current_public_ip env) with
    | true =>
      rw [run_updater_abort env s hsec hf] at h
      simp at h
    | false =>
      obtain ⟨ip, hip, hne⟩ := pyStrOptFalsy_eq_false _ hf
      rw [run_updater_success env s ip hsec hip hne] at h
      simp only [List.mem_cons, List.mem_flatten, List.mem_map] at h
      rcases h with h | h | ⟨t, ⟨rn, _, rfl⟩, hmem⟩
      · exact absurd h (by simp)
      · exact absurd h (by simp)
      · have := process_record_write_ip env ip rn rid ip' hmem
        subst this
        exact ⟨hip, hne⟩

theorem countFetches_cons (e : Event) (t : List Event) :
    countFetches (e :: t) = (if isFetchEvent e then 1 else 0) + countFetches t := by
  by_cases hp : isFetchEvent e <;> simp [countFetches, List.filter_cons, hp] <;> omega

theorem countReads_cons (e : Event) (t : List Event) :
    countReads (e :: t) = (if isReadConfigEvent e then 1 else 0) + countReads t := by
  by_cases hp : isReadConfigEvent e <;> simp [countReads, List.filter_cons, hp] <;> omega

theorem countWrites_cons (e : Event) (t : List Event) :
    countWrites (e :: t) = (if isWriteEvent e then 1 else 0) + countWrites t := by
  by_cases hp : isWriteEvent e <;> simp [countWrites, List.filter_cons, hp] <;> omega

theorem countLocatesFor_cons (rn : String) (e : Event) (t : List Event) :
    countLocatesFor rn (e :: t) = (if isLocateFor rn e then 1 else 0) + countLocatesFor rn t := by
  by_cases hp : isLocateFor rn e <;> simp [countLocatesFor, List.filter_cons, hp] <;> omega

/-! ## Provider-side state of a cycle -/

/-- Every write the provider acknowledges during a cycle is a write event of
the cycle's trace. -/
theorem cycleWrites_mem (env : Env) (p : String × String) (h : p ∈ cycleWrites env) :
    Event.write p.1 p.2 ∈ (run_updater env).1 := by
  unfold cycleWrites at h
  rw [List.mem_filterMap] at h
  obtain ⟨e, he, hf⟩ := h
  cases e with
  | readConfig => simp at hf
  | fetchIp => simp at hf
  | locate rn => simp at hf
  | write rid ip =>
    have hf' : (if update_dns_record env rid ip then some (rid, ip) else none)
        = some p := hf
    by_cases hu : update_dns_record env rid ip
    · rw [if_pos hu] at hf'
      rw [← Option.some.inj hf']
      exact he
    · rw [if_neg hu] at hf'
      exact absurd hf' (by simp)

/-- Every acknowledged write of a cycle carries the single resolved address. -/
theorem cycleWrites_ip (env : Env) (p : String × String) (h : p ∈ cycleWrites env) :
    retrieve_current_public_ip env = some p.2 :=
  (write_mem_trace env p.1 p.2 (cycleWrites_mem env p h)).1

/-- Applying a list of writes that all carry the same content `A` sets every
written id to `A` and leaves every other id unchanged. -/
theorem applyWrites_uniform (A : String) (ws : List (String × String))
    (hA : ∀ p ∈ ws, p.2 = A) (st : String → String) (r : String) :
    applyWrites st ws r = if r ∈ ws.map Prod.fst then A else st r := by
  induction ws generalizing st with
  | nil => simp [applyWrites]
  | cons p ws ih =>
    obtain ⟨rid, ip⟩ := p
    have hip : ip = A := hA (rid, ip) (List.mem_cons_self _ _)
    have hA' : ∀ q ∈ ws, q.2 = A := fun q hq => hA q (List.mem_cons_of_mem _ hq)
    rw [show applyWrites st ((rid, ip) :: ws)
        = applyWrites (fun r => if r = rid then ip else st r) ws from rfl]
    rw [ih hA']
    by_cases hmem : r ∈ ws.map Prod.fst
    · simp [hmem]
    · by_cases hr : r = rid <;> simp [hmem, hr, hip]

/-! ## Concrete environments used to exercise the theorems -/

def sampleSecrets : Secrets :=
  { cloudflare :=
      { email := "ops@example.com"
        api_key := "key"
        zone_id := "zone1"
        record_names := ["a.example.com", "b.example.com"] }
    cron := "* * * * *" }

/-- Everything succeeds; both names resolve to record `rid1`. -/
def envOk : Env :=
  { ipResp := some (200, "203.0.113.7")
    listResp := fun _ => ProviderListResp.ok [{ id := "rid1" }]
    editResp := fun _ => ProviderEditResp.ok true
    secretsFile := some sampleSecrets }

/-- The locate call for the first configured name faults; the second name
resolves and writes fine. -/
def envMixed : Env :=
  { envOk with
    listResp := fun rn =>
      if rn == "a.example.com" then ProviderListResp.fault
      else ProviderListResp.ok [{ id := "rid2" }] }

/-- The IP request raises. -/
def envNoIp : Env := { envOk with ipResp := none }

/-- The IP endpoint answers 200 with an empty body. -/
def envEmptyIp : Env := { envOk with ipResp := some (200, "") }

/-- `secrets.yaml` cannot be read. -/
def envNoSecrets : Env := { envOk with secretsFile := none }

def secretsC : Secrets :=
  { cloudflare :=
      { email := "ops@example.com"
        api_key := "key"
        zone_id := "zone1"
        record_names := ["c.example.com"] }
    cron := "* * * * *" }

/-- The provider returns an empty match set for `c.example.com`. -/
def envNotFound : Env :=
  { ipResp := some (200, "203.0.113.7")
    listResp := fun _ => ProviderListResp.ok []
    editResp := fun _ => ProviderEditResp.ok true
    secretsFile := some secretsC }

/-- The provider list call faults for `c.example.com`. -/
def envProviderFault : Env :=
  { envNotFound with listResp := fun _ => ProviderListResp.fault }

/-- The provider returns two matching records. -/
def envTwoRecords : Env :=
  { envOk with
    listResp := fun _ => ProviderListResp.ok [{ id := "first-id" }, { id := "second-id" }] }

/-- A provider-side state in which every record holds stale content. -/
def constOld : String → String := fun _ => "198.51.100.1"

/-! ## Claim theorems -/

/-- Claim C2: for every cycle in which address resolution fails
(`retrieve_current_public_ip` yields no address), the cycle aborts
immediately: zero record-locate calls and zero record-write calls occur, and
the cycle returns without processing records. -/
theorem cycle_aborts_without_address (env : Env)
    (h : retrieve_current_public_ip env = none) :
    countLocates (run_updater env).1 = 0 ∧ countWrites (run_updater env).1 = 0 ∧
      ((run_updater env).2 = Except.ok none ∨ (run_updater env).2 = Except.error ()) := by
  cases hsec : env.secretsFile with
  | none =>
    rw [run_updater_readFault env hsec]
    exact ⟨rfl, rfl, Or.inr rfl⟩
  | some s =>
    have hf : pyStrOptFalsy (retrieve_current_public_ip env) = true := by rw [h]; rfl
    rw [run_updater_abort env s hsec hf]
    exact ⟨rfl, rfl, Or.inl rfl⟩

theorem cycle_aborts_without_address_witness :
    retrieve_current_public_ip envNoIp = none ∧
      countLocates (run_updater envNoIp).1 = 0 ∧ countWrites (run_updater envNoIp).1 = 0 :=
  ⟨rfl, (cycle_aborts_without_address envNoIp rfl).1,
    (cycle_aborts_without_address envNoIp rfl).2.1⟩

/-- Counterexample to claim C6 as stated over every cycle: a cycle whose
configuration read fails performs zero address fetches, not exactly one —
`read_secrets` raises before `retrieve_current_public_ip` is ever called, so
the resolver is not reached in that cycle. -/
theorem single_address_counterexample :
    countFetches (run_updater envNoSecrets).1 = 0 ∧
      countFetches (run_updater envNoSecrets).1 ≠ 1 :=
  ⟨rfl, by decide⟩

/-- Claim C6 as amended: in every cycle whose configuration read completes,
exactly one public-address fetch occurs, and every record-write of the cycle
carries exactly the address that single fetch returned. -/
theorem single_address_per_cycle (env : Env) (s : Secrets)
    (h : env.secretsFile = some s) :
    countFetches (run_updater env).1 = 1 ∧
      ∀ rid ip', Event.write rid ip' ∈ (run_updater env).1 →
        retrieve_current_public_ip env = some ip' := by
  constructor
  · cases hf : pyStrOptFalsy (retrieve_current_public_ip env) with
    | true => rw [run_updater_abort env s h hf]; rfl
    | false =>
      obtain ⟨ip, hip, hne⟩ := pyStrOptFalsy_eq_false _ hf
      rw [run_updater_success env s ip h hip hne]
      rw [countFetches_cons, countFetches_cons, countFetches_loop]
      rfl
  · intro rid ip' hmem
    exact (write_mem_trace env rid ip' hmem).1

theorem single_address_per_cycle_witness :
    envOk.secretsFile = some sampleSecrets ∧ countFetches (run_updater envOk).1 = 1 :=
  ⟨rfl, (single_address_per_cycle envOk sampleSecrets rfl).1⟩

/-- Claim C9: whenever the provider returns one or more records matching the
given name, `get_record_id` selects the first record in the provider's
returned order and yields its id. -/
theorem locate_returns_first (env : Env) (rn : String) (r : DnsRecord)
    (rs : List DnsRecord) (h : env.listResp rn = ProviderListResp.ok (r :: rs)) :
    get_record_id env rn = some r.id := by
  unfold get_record_id
  rw [h]

theorem locate_returns_first_witness :
    envTwoRecords.listResp "a.example.com"
        = ProviderListResp.ok [{ id := "first-id" }, { id := "second-id" }] ∧
      get_record_id envTwoRecords "a.example.com" = some "first-id" :=
  ⟨rfl, locate_returns_first envTwoRecords "a.example.com"
    { id := "first-id" } [{ id := "second-id" }] rfl⟩

/-- Claim C10: an HTTP 200 response with an empty body makes
`retrieve_current_public_ip` return the empty string as a success, yet the
orchestrator's falsiness check aborts the cycle with zero locate and zero
write calls; moreover no cycle ever writes an empty address to any record. -/
theorem empty_body_never_written :
    (∀ env : Env, env.ipResp = some (200, "") →
        retrieve_current_public_ip env = some "" ∧
        countLocates (run_updater env).1 = 0 ∧ countWrites (run_updater env).1 = 0) ∧
    ∀ (env : Env) (rid : String), Event.write rid "" ∉ (run_updater env).1 := by
  constructor
  · intro env h
    have hret : retrieve_current_public_ip env = some "" := by
      unfold retrieve_current_public_ip
      rw [h]
      rfl
    have hcounts : countLocates (run_updater env).1 = 0 ∧
        countWrites (run_updater env).1 = 0 := by
      cases hsec : env.secretsFile with
      | none => rw [run_updater_readFault env hsec]; exact ⟨rfl, rfl⟩
      | some s =>
        have hf : pyStrOptFalsy (retrieve_current_public_ip env) = true := by
          rw [hret]; rfl
        rw [run_updater_abort env s hsec hf]
        exact ⟨rfl, rfl⟩
    exact ⟨hret, hcounts.1, hcounts.2⟩
  · intro env rid hmem
    exact (write_mem_trace env rid "" hmem).2 rfl

theorem empty_body_never_written_witness :
    envEmptyIp.ipResp = some (200, "") ∧
      retrieve_current_public_ip envEmptyIp = some "" ∧
      countLocates (run_updater envEmptyIp).1 = 0 :=
  ⟨rfl, (empty_body_never_written.1 envEmptyIp rfl).1,
    (empty_body_never_written.1 envEmptyIp rfl).2.1⟩

/-- Claim C1: in every cycle whose address resolution succeeds, every
configured record name receives its own outcome, in configuration order, and
that outcome is a function of that record's own locate/write responses alone
— so a failure at one name never prevents any later name from being
attempted, for every subset of failing records. -/
theorem per_record_independence (env : Env) (s : Secrets) (ip : String)
    (h : env.secretsFile = some s) (hip : retrieve_current_public_ip env = some ip)
    (hne : ip ≠ "") :
    ∃ outs, (run_updater env).2 = Except.ok (some outs) ∧
      outs.map Prod.fst = s.cloudflare.record_names ∧
      ∀ rn o, (rn, o) ∈ outs → o = (process_record env ip rn).2 := by
  refine ⟨s.cloudflare.record_names.map (fun rn => (rn, (process_record env ip rn).2)),
    ?_, ?_, ?_⟩
  · rw [run_updater_success env s ip h hip hne]
  · rw [List.map_map]
    simp [Function.comp_def]
  · intro rn o hmem
    simp only [List.mem_map] at hmem
    obtain ⟨rn', hmem', heq⟩ := hmem
    rw [Prod.mk.injEq] at heq
    obtain ⟨h1, h2⟩ := heq
    subst h1
    exact h2.symm

theorem per_record_independence_witness :
    envMixed.secretsFile = some sampleSecrets ∧
      retrieve_current_public_ip envMixed = some "203.0.113.7" ∧
      ∃ outs, (run_updater envMixed).2 = Except.ok (some outs) ∧
        outs.map Prod.fst = sampleSecrets.cloudflare.record_names ∧
        ∀ rn o, (rn, o) ∈ outs → o = (process_record envMixed "203.0.113.7" rn).2 :=
  ⟨rfl, rfl,
    per_record_independence envMixed sampleSecrets "203.0.113.7" rfl rfl (by decide)⟩

/-- Claim C7: in every cycle whose address resolution succeeds, each
configured name gets exactly one locate attempt (counted with multiplicity in
the configured list), the number of writes equals the number of names whose
locate succeeded, and the trace is exactly the configured names processed in
order, each as a locate immediately followed by a write of the cycle address
when — and only when — the locate succeeded. -/
theorem locate_write_discipline (env : Env) (s : Secrets) (ip : String)
    (h : env.secretsFile = some s) (hip : retrieve_current_public_ip env = some ip)
    (hne : ip ≠ "") :
    (∀ rn, countLocatesFor rn (run_updater env).1 = s.cloudflare.record_names.count rn) ∧
      countWrites (run_updater env).1
        = (s.cloudflare.record_names.filter (locSuccess env)).length ∧
      (run_updater env).1 = Event.readConfig :: Event.fetchIp ::
        (s.cloudflare.record_names.map (fun rn => (process_record env ip rn).1)).flatten ∧
      ∀ rn, (process_record env ip rn).1 =
        if locSuccess env rn then [Event.locate rn, Event.write (locatedId env rn) ip]
        else [Event.locate rn] := by
  refine ⟨?_, ?_, ?_, fun rn => process_record_trace env ip rn⟩
  · intro rn
    rw [run_updater_success env s ip h hip hne]
    rw [countLocatesFor_cons, countLocatesFor_cons, countLocatesFor_loop]
    simp [isLocateFor]
  · rw [run_updater_success env s ip h hip hne]
    rw [countWrites_cons, countWrites_cons, countWrites_loop]
    simp [isWriteEvent]
  · rw [run_updater_success env s ip h hip hne]

theorem locate_write_discipline_witness :
    envMixed.secretsFile = some sampleSecrets ∧
      countLocatesFor "a.example.com" (run_updater envMixed).1
        = sampleSecrets.cloudflare.record_names.count "a.example.com" ∧
      countWrites (run_updater envMixed).1
        = (sampleSecrets.cloudflare.record_names.filter (locSuccess envMixed)).length :=
  ⟨rfl,
    (locate_write_discipline envMixed sampleSecrets "203.0.113.7" rfl rfl
      (by decide)).1 "a.example.com",
    (locate_write_discipline envMixed sampleSecrets "203.0.113.7" rfl rfl
      (by decide)).2.1⟩

/-- Claim C8: a cycle is idempotent on provider-side record content — running
the same cycle twice, with the same resolved address and the same provider
responses, leaves the provider state identical after each run — and every
acknowledged write overwrites the record's content with the cycle address
regardless of the record's prior content (no compare-before-write). -/
theorem cycle_idempotent (env : Env) (st : String → String) :
    cycleEffect env (cycleEffect env st) = cycleEffect env st ∧
      ∀ p ∈ cycleWrites env, ∀ st2 : String → String, cycleEffect env st2 p.1 = p.2 := by
  cases hws : cycleWrites env with
  | nil =>
    constructor
    · unfold cycleEffect
      rw [hws]
      rfl
    · intro p hp
      simp at hp
  | cons p0 tl =>
    have huni : ∀ q ∈ p0 :: tl, q.2 = p0.2 := by
      intro q hq
      have h1 := cycleWrites_ip env q (by rw [hws]; exact hq)
      have h2 := cycleWrites_ip env p0 (by rw [hws]; exact List.mem_cons_self _ _)
      rw [h1] at h2
      exact Option.some.inj h2
    constructor
    · funext r
      unfold cycleEffect
      rw [hws]
      simp only [applyWrites_uniform p0.2 (p0 :: tl) huni]
      by_cases hmem : r ∈ (p0 :: tl).map Prod.fst
      · rw [if_pos hmem, if_pos hmem]
      · rw [if_neg hmem, if_neg hmem]
    · intro q hq st2
      unfold cycleEffect
      rw [hws]
      rw [applyWrites_uniform p0.2 (p0 :: tl) huni]
      have hmem : q.1 ∈ (p0 :: tl).map Prod.fst := List.mem_map_of_mem Prod.fst hq
      rw [if_pos hmem]
      exact (huni q hq).symm

theorem cycle_idempotent_witness :
    ("rid1", "203.0.113.7") ∈ cycleWrites envOk ∧
      cycleEffect envOk constOld "rid1" = "203.0.113.7" :=
  ⟨by decide,
    (cycle_idempotent envOk constOld).2 ("rid1", "203.0.113.7") (by decide) constOld⟩

/-- An environment identical to `envOk` except that `secrets.yaml` now holds
a different configuration. -/
def envOkAltCfg : Env := { envOk with secretsFile := some secretsC }

/-- Counterexample to claim C3: a reconciliation cycle does read the
configuration file — its trace contains a configuration read — and a cycle
run after the file changed observes the new configuration (here: it
processes a different record list), so the configuration is not immutable for
the process lifetime. -/
theorem config_reread_counterexample :
    Event.readConfig ∈ (run_updater envOk).1 ∧
      (run_updater envOkAltCfg).1 ≠ (run_updater envOk).1 := by
  constructor
  · decide
  · decide

/-- Claim C3 as amended: the configuration file is read exactly once per
cycle, as the very first external interaction of the cycle (in addition to
the read performed when the trigger is armed), so each cycle observes the
file's current contents rather than a startup snapshot. -/
theorem config_read_once_per_cycle (env : Env) :
    countReads (run_updater env).1 = 1 ∧
      (run_updater env).1.head? = some Event.readConfig := by
  cases hsec : env.secretsFile with
  | none =>
    rw [run_updater_readFault env hsec]
    exact ⟨rfl, rfl⟩
  | some s =>
    cases hf : pyStrOptFalsy (retrieve_current_public_ip env) with
    | true =>
      rw [run_updater_abort env s hsec hf]
      exact ⟨rfl, rfl⟩
    | false =>
      obtain ⟨ip, hip, hne⟩ := pyStrOptFalsy_eq_false _ hf
      rw [run_updater_success env s ip hsec hip hne]
      refine ⟨?_, rfl⟩
      rw [countReads_cons, countReads_cons, countReads_loop]
      rfl

/-- Counterexample to claim C4: when `secrets.yaml` becomes unreadable at
cycle time, the configuration read fault is not caught anywhere in
`run_updater` — the exception propagates out of the cycle entry point. -/
theorem config_fault_escapes_counterexample :
    (run_updater envNoSecrets).2 = Except.error () := rfl

/-- Claim C4 as amended: address-lookup faults, provider locate faults and
provider write faults are each caught at the boundary of the operation that
produced them and never escape `run_updater`; a configuration read fault
inside the cycle, however, is not caught.  An exception escapes `run_updater`
exactly when the configuration read fails. -/
theorem exception_iff_config_read_fault (env : Env) :
    (run_updater env).2 = Except.error () ↔ env.secretsFile = none := by
  constructor
  · intro h
    cases hsec : env.secretsFile with
    | none => rfl
    | some s =>
      cases hf : pyStrOptFalsy (retrieve_current_public_ip env) with
      | true =>
        rw [run_updater_abort env s hsec hf] at h
        exact absurd h (by simp)
      | false =>
        obtain ⟨ip, hip, hne⟩ := pyStrOptFalsy_eq_false _ hf
        rw [run_updater_success env s ip hsec hip hne] at h
        exact absurd h (by simp)
  · intro h
    rw [run_updater_readFault env h]

/-- Counterexample to claim C5: an empty match set and a provider locate
fault are not distinguishable.  Two cycles whose environments differ exactly
in that one provider answers `c.example.com` with an empty match set and the
other with a fault produce the same `None` from `get_record_id`, the same
trace and the same per-record outcomes — there is no distinct not-found
outcome. -/
theorem notfound_indistinguishable_counterexample :
    envNotFound.listResp "c.example.com" = ProviderListResp.ok [] ∧
      envProviderFault.listResp "c.example.com" = ProviderListResp.fault ∧
      get_record_id envNotFound "c.example.com" = none ∧
      get_record_id envProviderFault "c.example.com" = none ∧
      run_updater envNotFound = run_updater envProviderFault :=
  ⟨rfl, rfl, rfl, rfl, rfl⟩

/-- Claim C5 as amended: when the provider returns an empty match set the
locator returns `None` — the very value it returns for a provider fault, so
not-found and lookup-failed collapse into a single skipped-record outcome —
and the per-record outcome is one of exactly three values: updated,
locate-failed (covering both not-found and lookup-failed) and write-failed. -/
theorem empty_match_collapses (env : Env) (rn : String)
    (h : env.listResp rn = ProviderListResp.ok [] ∨
      env.listResp rn = ProviderListResp.fault) :
    get_record_id env rn = none ∧
      ∀ o : RecordOutcome, o = RecordOutcome.updated ∨ o = RecordOutcome.locateFailed ∨
        o = RecordOutcome.writeFailed := by
  constructor
  · unfold get_record_id
    rcases h with h | h <;> rw [h]
  · intro o
    cases o with
    | updated => exact Or.inl rfl
    | locateFailed => exact Or.inr (Or.inl rfl)
    | writeFailed => exact Or.inr (Or.inr rfl)

theorem empty_match_collapses_witness :
    envNotFound.listResp "c.example.com" = ProviderListResp.ok [] ∧
      get_record_id envNotFound "c.example.com" = none :=
  ⟨rfl, (empty_match_collapses envNotFound "c.example.com" (Or.inl rfl)).1⟩
